import Mathlib

/-!
Verification of the CO2 emission calculator repository.

The repository ships two parallel implementations of the same application:
* `Calculator1` models the first `Calculator` object in `src/js/calculator.js`
  (plain object literal; rounds with `Number(x.toFixed(n))`, silently returns
  `0` on unknown mode or non-positive distance).
* `Calculator2` models the second `Calculator` object in `src/js/calculator.js`
  (IIFE; rounds with `Math.round(x * 10^n) / 10^n`, throws `Error` on invalid
  input — modelled with `Except String`).
* `RoutesDB1` / `RoutesDB2` model the two `RoutesDB` objects in
  `src/js/routes-data.js` (first: IIFE with a 49-entry table and no empty-string
  guard; second: object literal with a 36-entry table and an empty-string guard).

JavaScript numbers are modelled as exact rationals (`ℚ`).  `Math.round`
rounds half toward positive infinity; `Number.prototype.toFixed` rounds half
away from zero (ECMA-262 negates a negative argument before choosing the
larger candidate).  Both are modelled by explicit functions on `ℚ`.
JavaScript strings are modelled as Lean `String`s; `trim` / `toLowerCase`
are modelled character-wise on `String.data` (the route data is ASCII).
-/

/-- `Math.round x`: round half toward positive infinity. -/
def jsRound (x : ℚ) : ℤ := ⌊x + 1 / 2⌋

/-- Rounding used by `Number.prototype.toFixed`: round to nearest, ties away
from zero (the ECMA-262 algorithm negates a negative argument first). -/
def toFixedRound (x : ℚ) : ℤ := if 0 ≤ x then ⌊x + 1 / 2⌋ else -⌊-x + 1 / 2⌋

/-- `Math.round (x * 100) / 100` — two-decimal rounding of the second variant. -/
def round2 (x : ℚ) : ℚ := (jsRound (x * 100) : ℚ) / 100

/-- `Number (x.toFixed 2)` — two-decimal rounding of the first variant. -/
def round2fixed (x : ℚ) : ℚ := (toFixedRound (x * 100) : ℚ) / 100

/-- `Math.round (x * 10000) / 10000` — four-decimal rounding of the second variant. -/
def round4 (x : ℚ) : ℚ := (jsRound (x * 10000) : ℚ) / 10000

/-- `Number (x.toFixed 4)` — four-decimal rounding of the first variant. -/
def round4fixed (x : ℚ) : ℚ := (toFixedRound (x * 10000) : ℚ) / 10000

/-- Display metadata of a transport mode (`CONFIG.TRANSPORT_MODES` entries). -/
structure ModeMeta where
  label : String
  icon : String
  color : String
deriving DecidableEq

/-- `CONFIG.EMISSION_FACTORS` (identical in both `config.js` variants):
kg CO2 per km, keyed by transport mode, in object-literal insertion order. -/
def CONFIG.EMISSION_FACTORS : List (String × ℚ) :=
  [("bicycle", 0), ("car", 0.12), ("bus", 0.089), ("truck", 0.96)]

/-- `CONFIG.TRANSPORT_MODES` (identical in both `config.js` variants). -/
def CONFIG.TRANSPORT_MODES : List (String × ModeMeta) :=
  [("bicycle", ⟨"Bicycle", "🚲", "#10b981"⟩),
   ("car", ⟨"Car", "🚗", "#3b82f6"⟩),
   ("bus", ⟨"Bus", "🚌", "#f59e0b"⟩),
   ("truck", ⟨"Truck", "🚚", "#ef4444"⟩)]

/-- `CONFIG.CARBON_CREDIT.KG_PER_CREDIT`. -/
def CONFIG.CARBON_CREDIT.KG_PER_CREDIT : ℚ := 1000

/-- `CONFIG.CARBON_CREDIT.PRICE_MIN_USD`. -/
def CONFIG.CARBON_CREDIT.PRICE_MIN_USD : ℚ := 50

/-- `CONFIG.CARBON_CREDIT.PRICE_MAX_USD`. -/
def CONFIG.CARBON_CREDIT.PRICE_MAX_USD : ℚ := 150

/-- The keys of `CONFIG.EMISSION_FACTORS`, in insertion order — the order in
which `for (var mode in CONFIG.EMISSION_FACTORS)` and
`Object.keys(CONFIG.EMISSION_FACTORS)` enumerate the modes. -/
def CONFIG.transportModeKeys : List String := CONFIG.EMISSION_FACTORS.map Prod.fst

/-- Declaration index of a mode in the closed enumeration (secondary sort key
used to state stability of the comparison ordering). -/
def modeIdx (m : String) : ℕ := CONFIG.transportModeKeys.findIdx (fun k => k == m)

/-- Result of the savings operations (`{ savedKg, percentage }`). -/
structure SavingsResult where
  savedKg : ℚ
  percentage : ℚ
deriving DecidableEq

/-- Result of the credit-price operations (`{ min, max, average }`). -/
structure PriceEstimate where
  min : ℚ
  max : ℚ
  average : ℚ
deriving DecidableEq

/-- One entry of the first variant's `calculateAllModes` result. -/
structure ModeResult where
  mode : String
  emission : ℚ
  percentageVsCar : ℚ
deriving DecidableEq

/-- One entry of the second variant's `calculateAllModes` result.
`percentageVsCar = none` models the JavaScript value `Infinity` (produced
when the car emission is `0` but the mode's emission is not). -/
structure ModeResult2 where
  mode : String
  emission : ℚ
  percentageVsCar : Option ℚ
  label : String
  icon : String
  color : String
deriving DecidableEq

/-- The comparison relation of `results.sort((a, b) => a.emission - b.emission)`.
`Array.prototype.sort` is stable and orders ascending by the comparator, which
is exactly `List.insertionSort` with this relation. -/
def byEmission (a b : ModeResult) : Prop := a.emission ≤ b.emission

instance : DecidableRel byEmission := fun a b => inferInstanceAs (Decidable (a.emission ≤ b.emission))

/-- Same comparator for the second variant's entries. -/
def byEmission2 (a b : ModeResult2) : Prop := a.emission ≤ b.emission

instance : DecidableRel byEmission2 := fun a b => inferInstanceAs (Decidable (a.emission ≤ b.emission))

namespace Calculator1

/-- First `Calculator.calculateEmission` (calculator.js lines 19–27):
`factor === undefined || distanceKm <= 0` yields `0`, otherwise
`Number((distanceKm * factor).toFixed(2))`. -/
def calculateEmission (distanceKm : ℚ) (transportMode : String) : ℚ :=
  match List.lookup transportMode CONFIG.EMISSION_FACTORS with
  | none => 0
  | some factor => if distanceKm ≤ 0 then 0 else round2fixed (distanceKm * factor)

/-- Body of the `for (var mode in CONFIG.EMISSION_FACTORS)` loop of the first
`calculateAllModes`: the object pushed for one mode. -/
def modeEntry (distanceKm carEmission : ℚ) (mode : String) : ModeResult :=
  let emission := calculateEmission distanceKm mode
  let percentageVsCar := if 0 < carEmission then emission / carEmission * 100 else 0
  { mode := mode, emission := emission, percentageVsCar := round2fixed percentageVsCar }

/-- First `Calculator.calculateAllModes` (calculator.js lines 39–64):
builds one entry per key of `CONFIG.EMISSION_FACTORS` in insertion order and
sorts with the stable `Array.prototype.sort` under
`(a, b) => a.emission - b.emission`. -/
def calculateAllModes (distanceKm : ℚ) : List ModeResult :=
  let carEmission := calculateEmission distanceKm "car"
  List.insertionSort byEmission (CONFIG.transportModeKeys.map (modeEntry distanceKm carEmission))

/-- First `Calculator.calculateSavingd` (calculator.js lines 76–88):
note the absence of any clamping of `savedKg` at `0`. -/
def calculateSavingd (emission baselineEmission : ℚ) : SavingsResult :=
  if baselineEmission ≤ 0 then { savedKg := 0, percentage := 0 }
  else
    let savedKg := baselineEmission - emission
    let percentage := savedKg / baselineEmission * 100
    { savedKg := round2fixed savedKg, percentage := round2fixed percentage }

/-- First `Calculator.calculateCarbonCredits` (calculator.js lines 98–105). -/
def calculateCarbonCredits (emissionKg : ℚ) : ℚ :=
  if emissionKg ≤ 0 then 0
  else round4fixed (emissionKg / CONFIG.CARBON_CREDIT.KG_PER_CREDIT)

/-- First `Calculator.estimatedCreditPrice` (calculator.js lines 117–131). -/
def estimatedCreditPrice (credits : ℚ) : PriceEstimate :=
  if credits ≤ 0 then { min := 0, max := 0, average := 0 }
  else
    let minP := credits * CONFIG.CARBON_CREDIT.PRICE_MIN_USD
    let maxP := credits * CONFIG.CARBON_CREDIT.PRICE_MAX_USD
    let averageP := (minP + maxP) / 2
    { min := round2fixed minP, max := round2fixed maxP, average := round2fixed averageP }

end Calculator1

namespace Calculator2

/-- Second `calculator.calculateEmission` (calculator.js lines 153–171):
throws on non-positive distance, then on a mode missing from
`CONFIG.EMISSION_FACTORS`; otherwise `Math.round(emission * 100) / 100`. -/
def calculateEmission (distanceKm : ℚ) (transportMode : String) : Except String ℚ :=
  if distanceKm ≤ 0 then
    Except.error "Invalid distance. Must be a positive number."
  else
    match List.lookup transportMode CONFIG.EMISSION_FACTORS with
    | none => Except.error ("Unknown transport mode: " ++ transportMode)
    | some emissionFactor => Except.ok (round2 (distanceKm * emissionFactor))

/-- The object pushed for one mode by the second `calculateAllModes`, given the
emission already computed for that mode.  `percentageVsCar = none` models the
`Infinity` branch; otherwise `Math.round((emission / carEmission) * 100)`.
The display metadata comes from `CONFIG.TRANSPORT_MODES[mode]` (whose keys
coincide with those of `CONFIG.EMISSION_FACTORS`, so the default is inert). -/
def modeEntry (carEmission emission : ℚ) (mode : String) : ModeResult2 :=
  let percentageVsCar : Option ℚ :=
    if carEmission = 0 then (if emission = 0 then some 100 else none)
    else some ((jsRound (emission / carEmission * 100) : ℚ))
  let meta := (List.lookup mode CONFIG.TRANSPORT_MODES).getD ⟨"", "", ""⟩
  { mode := mode, emission := emission, percentageVsCar := percentageVsCar,
    label := meta.label, icon := meta.icon, color := meta.color }

/-- The `Object.keys(CONFIG.EMISSION_FACTORS).forEach` loop of the second
`calculateAllModes`: an exception thrown by `calculateEmission` aborts it. -/
def allModesLoop (distanceKm carEmission : ℚ) : List String → Except String (List ModeResult2)
  | [] => Except.ok []
  | mode :: rest =>
    match calculateEmission distanceKm mode with
    | Except.error e => Except.error e
    | Except.ok emission =>
      match allModesLoop distanceKm carEmission rest with
      | Except.error e => Except.error e
      | Except.ok tail => Except.ok (modeEntry carEmission emission mode :: tail)

/-- Second `calculator.calculateAllModes` (calculator.js lines 179–216). -/
def calculateAllModes (distanceKm : ℚ) : Except String (List ModeResult2) :=
  if distanceKm ≤ 0 then Except.error "Invalid distance. Must be a positive number."
  else
    match calculateEmission distanceKm "car" with
    | Except.error e => Except.error e
    | Except.ok carEmission =>
      match allModesLoop distanceKm carEmission CONFIG.transportModeKeys with
      | Except.error e => Except.error e
      | Except.ok results => Except.ok (List.insertionSort byEmission2 results)

/-- Second `calculator.calculateSavings` (calculator.js lines 224–248):
clamps `savedKg` at `0` with `Math.max`. -/
def calculateSavings (emission baselineEmission : ℚ) : SavingsResult :=
  if baselineEmission ≤ 0 then { savedKg := 0, percentage := 0 }
  else
    let savedKg := max 0 (baselineEmission - emission)
    let percentage := savedKg / baselineEmission * 100
    { savedKg := round2 savedKg, percentage := round2 percentage }

/-- Second `calculator.calculateCarbonCredits` (calculator.js lines 256–266). -/
def calculateCarbonCredits (emissionKg : ℚ) : Except String ℚ :=
  if emissionKg < 0 then Except.error "Emission must be a non-negative number"
  else Except.ok (round4 (emissionKg / CONFIG.CARBON_CREDIT.KG_PER_CREDIT))

/-- Second `calculator.estimateCreditPrice` (calculator.js lines 274–290). -/
def estimateCreditPrice (credits : ℚ) : Except String PriceEstimate :=
  if credits < 0 then Except.error "Credits must be a non-negative number"
  else
    let minPrice := credits * CONFIG.CARBON_CREDIT.PRICE_MIN_USD
    let maxPrice := credits * CONFIG.CARBON_CREDIT.PRICE_MAX_USD
    let averagePrice := (minPrice + maxPrice) / 2
    Except.ok { min := round2 minPrice, max := round2 maxPrice, average := round2 averagePrice }

end Calculator2

/-- ASCII lower-casing of one character, as `String.prototype.toLowerCase`
acts on the ASCII route data. -/
def jsCharToLower (c : Char) : Char :=
  if 'A' ≤ c ∧ c ≤ 'Z' then Char.ofNat (c.toNat + 32) else c

/-- `toLowerCase` on a string, character-wise. -/
def jsToLower (s : List Char) : List Char := s.map jsCharToLower

/-- White space removed by `String.prototype.trim` (space, tab, line and
paragraph separators of the ASCII range plus no-break space). -/
def jsIsSpace (c : Char) : Bool :=
  c == ' ' || c == '\t' || c == '\n' || c == '\r' ||
  c == Char.ofNat 11 || c == Char.ofNat 12 || c == Char.ofNat 160

/-- `String.prototype.trim`: drop leading and trailing white space. -/
def jsTrim (s : List Char) : List Char :=
  ((s.dropWhile jsIsSpace).reverse.dropWhile jsIsSpace).reverse

/-- Normalization applied to the query inputs: `.trim().toLowerCase()`. -/
def normInput (s : String) : List Char := jsToLower (jsTrim s.data)

/-- Normalization applied to the stored route fields: `.toLowerCase()` only. -/
def normField (s : String) : List Char := jsToLower s.data

/-- One record of a `RoutesDB.routes` table. -/
structure Route where
  origin : String
  destination : String
  distanceKm : ℚ

namespace RoutesDB1

/-- Routes table of the first `RoutesDB` (routes-data.js lines 8–69). -/
def routes : List Route :=
  [⟨"Toronto, ON", "Ottawa, ON", 451⟩,
   ⟨"Toronto, ON", "Montreal, QC", 542⟩,
   ⟨"Toronto, ON", "Vancouver, BC", 4350⟩,
   ⟨"Toronto, ON", "New York, NY", 874⟩,
   ⟨"Toronto, ON", "Chicago, IL", 838⟩,
   ⟨"Ottawa, ON", "Montreal, QC", 199⟩,
   ⟨"Ottawa, ON", "Edmonton, AB", 3389⟩,
   ⟨"Ottawa, ON", "Vancouver, BC", 4465⟩,
   ⟨"Montreal, QC", "Quebec City, QC", 250⟩,
   ⟨"Montreal, QC", "Boston, MA", 506⟩,
   ⟨"Vancouver, BC", "Seattle, WA", 230⟩,
   ⟨"Vancouver, BC", "Calgary, AB", 970⟩,
   ⟨"Vancouver, BC", "Edmonton, AB", 1170⟩,
   ⟨"Vancouver, BC", "Toronto, ON", 4350⟩,
   ⟨"Calgary, AB", "Edmonton, AB", 299⟩,
   ⟨"Calgary, AB", "Winnipeg, MB", 1330⟩,
   ⟨"Edmonton, AB", "Saskatoon, SK", 525⟩,
   ⟨"Edmonton, AB", "Victoria, BC", 1210⟩,
   ⟨"Winnipeg, MB", "Toronto, ON", 2040⟩,
   ⟨"Winnipeg, MB", "Calgary, AB", 1330⟩,
   ⟨"Winnipeg, MB", "Saskatoon, SK", 785⟩,
   ⟨"Winnipeg, MB", "Thunder Bay, ON", 705⟩,
   ⟨"Halifax, NS", "St. John\x27s, NL", 1710⟩,
   ⟨"Halifax, NS", "Montreal, QC", 1265⟩,
   ⟨"Halifax, NS", "Toronto, ON", 1795⟩,
   ⟨"New York, NY", "Washington, DC", 365⟩,
   ⟨"New York, NY", "Boston, MA", 346⟩,
   ⟨"New York, NY", "Chicago, IL", 1266⟩,
   ⟨"New York, NY", "Los Angeles, CA", 4470⟩,
   ⟨"Los Angeles, CA", "San Francisco, CA", 616⟩,
   ⟨"Los Angeles, CA", "Las Vegas, NV", 434⟩,
   ⟨"Los Angeles, CA", "San Diego, CA", 192⟩,
   ⟨"Chicago, IL", "Detroit, MI", 458⟩,
   ⟨"Chicago, IL", "St. Louis, MO", 467⟩,
   ⟨"Chicago, IL", "Minneapolis, MN", 644⟩,
   ⟨"Seattle, WA", "Portland, OR", 280⟩,
   ⟨"Seattle, WA", "Vancouver, BC", 230⟩,
   ⟨"Detroit, MI", "Windsor, ON", 5⟩,
   ⟨"Buffalo, NY", "Toronto, ON", 157⟩,
   ⟨"Boston, MA", "Montreal, QC", 506⟩,
   ⟨"San Francisco, CA", "Portland, OR", 1015⟩,
   ⟨"San Francisco, CA", "Seattle, WA", 1300⟩,
   ⟨"Miami, FL", "Orlando, FL", 346⟩,
   ⟨"Miami, FL", "Atlanta, GA", 1087⟩,
   ⟨"Atlanta, GA", "Nashville, TN", 395⟩,
   ⟨"Dallas, TX", "Houston, TX", 385⟩,
   ⟨"Dallas, TX", "Austin, TX", 320⟩,
   ⟨"Phoenix, AZ", "Tucson, AZ", 188⟩,
   ⟨"Phoenix, AZ", "Las Vegas, NV", 474⟩]

/-- The `routes.find` scan of the first `findDistance`, applied to the already
normalized inputs: first route matching in either direction, in table order. -/
def search (normalizedA normalizedB : List Char) : Option ℚ :=
  match routes.find? (fun route =>
      let origin := normField route.origin
      let destination := normField route.destination
      (origin == normalizedA && destination == normalizedB) ||
      (origin == normalizedB && destination == normalizedA)) with
  | some route => some route.distanceKm
  | none => none

/-- First `RoutesDB.findDistance` (routes-data.js lines 110–126):
normalizes with `.trim().toLowerCase()` and scans; no guard against empty
inputs. -/
def findDistance (cityA cityB : String) : Option ℚ :=
  search (normInput cityA) (normInput cityB)

end RoutesDB1

namespace RoutesDB2

/-- Routes table of the second `RoutesDB` (routes-data.js lines 151–191). -/
def routes : List Route :=
  [⟨"Toronto, ON", "Ottawa, ON", 451⟩,
   ⟨"Ottawa, ON", "Montreal, QC", 199⟩,
   ⟨"Toronto, ON", "Montreal, QC", 541⟩,
   ⟨"Edmonton, AB", "Ottawa, ON", 3389⟩,
   ⟨"Vancouver, BC", "Ottawa, ON", 4450⟩,
   ⟨"Calgary, AB", "Edmonton, AB", 299⟩,
   ⟨"Vancouver, BC", "Calgary, AB", 970⟩,
   ⟨"Winnipeg, MB", "Toronto, ON", 2225⟩,
   ⟨"Winnipeg, MB", "Regina, SK", 575⟩,
   ⟨"Regina, SK", "Saskatoon, SK", 262⟩,
   ⟨"Halifax, NS", "Moncton, NB", 260⟩,
   ⟨"Halifax, NS", "St. John\x27s, NL", 1810⟩,
   ⟨"Quebec City, QC", "Montreal, QC", 252⟩,
   ⟨"Quebec City, QC", "Ottawa, ON", 445⟩,
   ⟨"Hamilton, ON", "Toronto, ON", 68⟩,
   ⟨"Toronto, ON", "New York, NY", 790⟩,
   ⟨"Toronto, ON", "Chicago, IL", 701⟩,
   ⟨"Vancouver, BC", "Seattle, WA", 230⟩,
   ⟨"Montreal, QC", "Boston, MA", 500⟩,
   ⟨"Vancouver, BC", "San Francisco, CA", 1275⟩,
   ⟨"Calgary, AB", "Denver, CO", 1350⟩,
   ⟨"Windsor, ON", "Detroit, MI", 11⟩,
   ⟨"New York, NY", "Washington, DC", 362⟩,
   ⟨"Washington, DC", "Boston, MA", 634⟩,
   ⟨"Los Angeles, CA", "San Francisco, CA", 615⟩,
   ⟨"Los Angeles, CA", "Las Vegas, NV", 435⟩,
   ⟨"San Francisco, CA", "Seattle, WA", 1306⟩,
   ⟨"Chicago, IL", "Detroit, MI", 454⟩,
   ⟨"Chicago, IL", "Minneapolis, MN", 661⟩,
   ⟨"Dallas, TX", "Houston, TX", 385⟩,
   ⟨"Atlanta, GA", "Miami, FL", 1065⟩,
   ⟨"Denver, CO", "Salt Lake City, UT", 830⟩,
   ⟨"Phoenix, AZ", "Las Vegas, NV", 475⟩,
   ⟨"San Diego, CA", "Los Angeles, CA", 195⟩]

/-- The `for` scan of the second `findDistance`, applied to the already
normalized inputs: first route matching in either direction, in table order. -/
def search (o d : List Char) : Option ℚ :=
  match routes.find? (fun route =>
      let rOrigin := normField route.origin
      let rDest := normField route.destination
      (rOrigin == o && rDest == d) || (rOrigin == d && rDest == o)) with
  | some route => some route.distanceKm
  | none => none

/-- Second `RoutesDB.findDistance` (routes-data.js lines 217–238):
`if (!origin || !destination) return null` — for string arguments the guard
fires exactly on the empty string — then the linear scan on the
`.trim().toLowerCase()`-normalized inputs. -/
def findDistance (origin destination : String) : Option ℚ :=
  if origin = "" ∨ destination = "" then none
  else search (normInput origin) (normInput destination)

end RoutesDB2

/-- Lexicographic order by a primary rational key and a secondary natural key:
what a stable ascending sort realizes when the secondary key is strictly
increasing in the input. -/
def lexLt {α : Type} (key : α → ℚ) (sec : α → ℕ) (a b : α) : Prop :=
  key a < key b ∨ (key a = key b ∧ sec a < sec b)

instance {α : Type} (key : α → ℚ) (sec : α → ℕ) : DecidableRel (lexLt key sec) :=
  fun a b => inferInstanceAs (Decidable (_ ∨ _))

lemma toFixedRound_of_nonneg {x : ℚ} (h : 0 ≤ x) : toFixedRound x = jsRound x := by
  simp [toFixedRound, jsRound, h]

lemma round2fixed_eq_round2 {x : ℚ} (h : 0 ≤ x) : round2fixed x = round2 x := by
  simp [round2fixed, round2, toFixedRound_of_nonneg (by positivity : (0:ℚ) ≤ x * 100)]

lemma round2_nonneg {x : ℚ} (h : 0 ≤ x) : 0 ≤ round2 x := by
  have hf : (0:ℤ) ≤ jsRound (x * 100) := by
    refine Int.le_floor.mpr ?_
    push_cast
    nlinarith
  unfold round2
  positivity

lemma round2_zero : round2 0 = 0 := by
  norm_num [round2, jsRound]

lemma round2fixed_hundred : round2fixed 100 = 100 := by
  norm_num [round2fixed, toFixedRound]

lemma jsRound_hundred : jsRound 100 = 100 := by
  norm_num [jsRound]

lemma lookup_bicycle : List.lookup "bicycle" CONFIG.EMISSION_FACTORS = some 0 := by
  simp [CONFIG.EMISSION_FACTORS, List.lookup]

lemma lookup_car : List.lookup "car" CONFIG.EMISSION_FACTORS = some 0.12 := by
  simp [CONFIG.EMISSION_FACTORS, List.lookup]

lemma lookup_bus : List.lookup "bus" CONFIG.EMISSION_FACTORS = some 0.089 := by
  simp [CONFIG.EMISSION_FACTORS, List.lookup]

lemma lookup_truck : List.lookup "truck" CONFIG.EMISSION_FACTORS = some 0.96 := by
  simp [CONFIG.EMISSION_FACTORS, List.lookup]

lemma modeKeys_cases {m : String} (hm : m ∈ CONFIG.transportModeKeys) :
    m = "bicycle" ∨ m = "car" ∨ m = "bus" ∨ m = "truck" := by
  simpa [CONFIG.transportModeKeys, CONFIG.EMISSION_FACTORS] using hm

lemma calculateEmission1_of_lookup {m : String} {f : ℚ}
    (h : List.lookup m CONFIG.EMISSION_FACTORS = some f) {d : ℚ} (hd : 0 < d) :
    Calculator1.calculateEmission d m = round2fixed (d * f) := by
  simp [Calculator1.calculateEmission, h, not_le.mpr hd]

lemma calculateEmission2_of_lookup {m : String} {f : ℚ}
    (h : List.lookup m CONFIG.EMISSION_FACTORS = some f) {d : ℚ} (hd : 0 < d) :
    Calculator2.calculateEmission d m = Except.ok (round2 (d * f)) := by
  simp [Calculator2.calculateEmission, h, not_le.mpr hd]

lemma emission_bridge {d : ℚ} (hd : 0 < d) {m : String} (hm : m ∈ CONFIG.transportModeKeys) :
    Calculator2.calculateEmission d m = Except.ok (Calculator1.calculateEmission d m) := by
  have hfix : ∀ f : ℚ, 0 ≤ f → round2fixed (d * f) = round2 (d * f) := fun f hf =>
    round2fixed_eq_round2 (mul_nonneg hd.le hf)
  rcases modeKeys_cases hm with rfl | rfl | rfl | rfl
  · rw [calculateEmission2_of_lookup lookup_bicycle hd,
      calculateEmission1_of_lookup lookup_bicycle hd, hfix 0 le_rfl]
  · rw [calculateEmission2_of_lookup lookup_car hd,
      calculateEmission1_of_lookup lookup_car hd, hfix 0.12 (by norm_num)]
  · rw [calculateEmission2_of_lookup lookup_bus hd,
      calculateEmission1_of_lookup lookup_bus hd, hfix 0.089 (by norm_num)]
  · rw [calculateEmission2_of_lookup lookup_truck hd,
      calculateEmission1_of_lookup lookup_truck hd, hfix 0.96 (by norm_num)]

lemma calculateEmission1_bicycle (d : ℚ) : Calculator1.calculateEmission d "bicycle" = 0 := by
  by_cases h : d ≤ 0
  · simp [Calculator1.calculateEmission, lookup_bicycle, h]
  · simp [Calculator1.calculateEmission, lookup_bicycle, h]
    norm_num [round2fixed, toFixedRound]

lemma calculateEmission1_car_pos_of {d : ℚ} (h : 0 < Calculator1.calculateEmission d "car") :
    0 < d := by
  by_contra hc
  simp [Calculator1.calculateEmission, lookup_car, not_lt.mp hc] at h

lemma pairwise_lex_orderedInsert {α : Type} {r : α → α → Prop} [DecidableRel r]
    (key : α → ℚ) (sec : α → ℕ) (hr : ∀ a b, r a b ↔ key a ≤ key b)
    (x : α) (l : List α) (hl : l.Pairwise (lexLt key sec))
    (hx : ∀ z ∈ l, sec x < sec z) :
    (l.orderedInsert r x).Pairwise (lexLt key sec) := by
  induction l with
  | nil => simp [List.orderedInsert, List.pairwise_singleton]
  | cons y ys ih =>
    rw [List.pairwise_cons] at hl
    obtain ⟨hy, hys⟩ := hl
    by_cases h : r x y
    · rw [List.orderedInsert, if_pos h]
      have hxy : key x ≤ key y := (hr x y).mp h
      refine List.pairwise_cons.mpr ⟨?_, List.pairwise_cons.mpr ⟨hy, hys⟩⟩
      intro z hz
      rcases List.mem_cons.mp hz with rfl | hz
      · rcases lt_or_eq_of_le hxy with h1 | h1
        · exact Or.inl h1
        · exact Or.inr ⟨h1, hx z (List.mem_cons_self z ys)⟩
      · have hyz := hy z hz
        have hxz : key x ≤ key z := by
          rcases hyz with h2 | ⟨h2, _⟩
          · exact le_trans hxy (le_of_lt h2)
          · exact le_trans hxy (le_of_eq h2)
        rcases lt_or_eq_of_le hxz with h1 | h1
        · exact Or.inl h1
        · exact Or.inr ⟨h1, hx z (List.mem_cons_of_mem y hz)⟩
    · rw [List.orderedInsert, if_neg h]
      refine List.pairwise_cons.mpr
        ⟨?_, ih hys (fun z hz => hx z (List.mem_cons_of_mem y hz))⟩
      intro z hz
      rcases (List.mem_orderedInsert r).mp hz with rfl | hz
      · exact Or.inl (not_le.mp (fun hc => h ((hr z y).mpr hc)))
      · exact hy z hz

lemma pairwise_lex_insertionSort {α : Type} {r : α → α → Prop} [DecidableRel r]
    (key : α → ℚ) (sec : α → ℕ) (hr : ∀ a b, r a b ↔ key a ≤ key b)
    (l : List α) (h : l.Pairwise (fun a b => sec a < sec b)) :
    (l.insertionSort r).Pairwise (lexLt key sec) := by
  induction l with
  | nil => simp [List.insertionSort]
  | cons x xs ih =>
    rw [List.pairwise_cons] at h
    obtain ⟨hx, hxs⟩ := h
    rw [List.insertionSort]
    refine pairwise_lex_orderedInsert key sec hr x _ (ih hxs) ?_
    intro z hz
    exact hx z ((List.mem_insertionSort r).mp hz)

lemma allModesLoop_eq {d : ℚ} (car : ℚ) (hd : 0 < d) :
    ∀ ms : List String, (∀ m ∈ ms, m ∈ CONFIG.transportModeKeys) →
    Calculator2.allModesLoop d car ms =
      Except.ok (ms.map (fun m =>
        Calculator2.modeEntry car (Calculator1.calculateEmission d m) m)) := by
  intro ms
  induction ms with
  | nil => intro _; rfl
  | cons m rest ih =>
    intro hms
    have hm : m ∈ CONFIG.transportModeKeys := hms m (List.mem_cons_self m rest)
    rw [Calculator2.allModesLoop, emission_bridge hd hm,
      ih (fun x hx => hms x (List.mem_cons_of_mem m hx))]
    rfl

lemma calculateAllModes2_eq {d : ℚ} (hd : 0 < d) :
    Calculator2.calculateAllModes d = Except.ok (List.insertionSort byEmission2
      (CONFIG.transportModeKeys.map (fun m =>
        Calculator2.modeEntry (Calculator1.calculateEmission d "car")
          (Calculator1.calculateEmission d m) m))) := by
  have hcar := emission_bridge hd (show "car" ∈ CONFIG.transportModeKeys by decide)
  have hloop := allModesLoop_eq (Calculator1.calculateEmission d "car") hd
    CONFIG.transportModeKeys (fun m hm => hm)
  simp [Calculator2.calculateAllModes, not_le.mpr hd, hcar, hloop]

lemma list_find?_congr {α : Type} {p q : α → Bool} (l : List α) (h : ∀ a, p a = q a) :
    l.find? p = l.find? q := by
  induction l with
  | nil => rfl
  | cons x xs ih => simp only [List.find?, h x, ih]

lemma search1_symm (o d : List Char) : RoutesDB1.search o d = RoutesDB1.search d o := by
  unfold RoutesDB1.search
  rw [list_find?_congr RoutesDB1.routes (fun r => Bool.or_comm _ _)]

lemma search2_symm (o d : List Char) : RoutesDB2.search o d = RoutesDB2.search d o := by
  unfold RoutesDB2.search
  rw [list_find?_congr RoutesDB2.routes (fun r => Bool.or_comm _ _)]

lemma routes1_pos : ∀ r ∈ RoutesDB1.routes, 0 < r.distanceKm := by decide

lemma routes2_pos : ∀ r ∈ RoutesDB2.routes, 0 < r.distanceKm := by decide

lemma routes1_fields_ne_nil :
    ∀ r ∈ RoutesDB1.routes, normField r.origin ≠ [] ∧ normField r.destination ≠ [] := by decide

lemma routes2_fields_ne_nil :
    ∀ r ∈ RoutesDB2.routes, normField r.origin ≠ [] ∧ normField r.destination ≠ [] := by decide

lemma search1_pos {o d : List Char} {k : ℚ} (h : RoutesDB1.search o d = some k) : 0 < k := by
  unfold RoutesDB1.search at h
  rcases hf : RoutesDB1.routes.find? _ with _ | r
  · rw [hf] at h; exact absurd h (by simp)
  · rw [hf] at h
    have hr := List.mem_of_find?_eq_some hf
    have := routes1_pos r hr
    simp only [Option.some.injEq] at h
    exact h ▸ this

lemma search2_pos {o d : List Char} {k : ℚ} (h : RoutesDB2.search o d = some k) : 0 < k := by
  unfold RoutesDB2.search at h
  rcases hf : RoutesDB2.routes.find? _ with _ | r
  · rw [hf] at h; exact absurd h (by simp)
  · rw [hf] at h
    have hr := List.mem_of_find?_eq_some hf
    have := routes2_pos r hr
    simp only [Option.some.injEq] at h
    exact h ▸ this

lemma search1_empty {o d : List Char} (h : o = [] ∨ d = []) : RoutesDB1.search o d = none := by
  unfold RoutesDB1.search
  have hnone : RoutesDB1.routes.find? (fun route =>
      (normField route.origin == o && normField route.destination == d) ||
      (normField route.origin == d && normField route.destination == o)) = none := by
    refine List.find?_eq_none.mpr ?_
    intro r hr
    obtain ⟨h1, h2⟩ := routes1_fields_ne_nil r hr
    simp only [Bool.or_eq_true, Bool.and_eq_true, beq_iff_eq, not_or, not_and]
    rcases h with rfl | rfl
    · exact ⟨fun h3 => absurd h3 h1, fun _ h4 => absurd h4 h2⟩
    · exact ⟨fun _ h4 => absurd h4 h2, fun h3 => absurd h3 h1⟩
  rw [hnone]

lemma search2_empty {o d : List Char} (h : o = [] ∨ d = []) : RoutesDB2.search o d = none := by
  unfold RoutesDB2.search
  have hnone : RoutesDB2.routes.find? (fun route =>
      (normField route.origin == o && normField route.destination == d) ||
      (normField route.origin == d && normField route.destination == o)) = none := by
    refine List.find?_eq_none.mpr ?_
    intro r hr
    obtain ⟨h1, h2⟩ := routes2_fields_ne_nil r hr
    simp only [Bool.or_eq_true, Bool.and_eq_true, beq_iff_eq, not_or, not_and]
    rcases h with rfl | rfl
    · exact ⟨fun h3 => absurd h3 h1, fun _ h4 => absurd h4 h2⟩
    · exact ⟨fun _ h4 => absurd h4 h2, fun h3 => absurd h3 h1⟩
  rw [hnone]

lemma normInput_empty : normInput "" = [] := by decide

lemma findDistance2_eq_search (a b : String) :
    RoutesDB2.findDistance a b = RoutesDB2.search (normInput a) (normInput b) := by
  unfold RoutesDB2.findDistance
  by_cases ha : a = ""
  · subst ha
    rw [if_pos (Or.inl rfl), search2_empty (Or.inl normInput_empty)]
  · by_cases hb : b = ""
    · subst hb
      rw [if_pos (Or.inr rfl), search2_empty (Or.inr normInput_empty)]
    · rw [if_neg (by tauto)]

lemma modeEntry1_mode (d car : ℚ) (m : String) : (Calculator1.modeEntry d car m).mode = m := rfl

lemma modeEntry1_emission (d car : ℚ) (m : String) :
    (Calculator1.modeEntry d car m).emission = Calculator1.calculateEmission d m := rfl

lemma modeEntry2_mode (car em : ℚ) (m : String) : (Calculator2.modeEntry car em m).mode = m := rfl

lemma modeEntry2_emission (car em : ℚ) (m : String) :
    (Calculator2.modeEntry car em m).emission = em := rfl

/-- C1 counterexample: `calculateSavingd` (the first savings implementation)
returns `savedKg = -1` for `actualKg = 2`, `baselineKg = 1`, which differs from
`max 0 (baselineKg - actualKg) = 0` — the claim fails on this input. -/
theorem c1_counterexample :
    (Calculator1.calculateSavingd 2 1).savedKg = -1 ∧
    (Calculator1.calculateSavingd 2 1).savedKg ≠ max 0 ((1 : ℚ) - 2) := by
  norm_num [Calculator1.calculateSavingd, round2fixed, toFixedRound]

/-- C1 (amended): for every `baselineKg > 0` the second savings implementation
(`calculateSavings`) returns `savedKg = max 0 (baselineKg - actualKg)` rounded
to 2 decimals, which is never negative and is `0` whenever the actual emission
is at least the baseline; the first implementation (`calculateSavingd`) returns
`baselineKg - actualKg` rounded, with no clamping at `0`. -/
theorem c1_savings_clamped (actualKg baselineKg : ℚ) (h : 0 < baselineKg) :
    (Calculator2.calculateSavings actualKg baselineKg).savedKg =
      round2 (max 0 (baselineKg - actualKg)) ∧
    0 ≤ (Calculator2.calculateSavings actualKg baselineKg).savedKg ∧
    (baselineKg ≤ actualKg →
      (Calculator2.calculateSavings actualKg baselineKg).savedKg = 0) ∧
    (Calculator1.calculateSavingd actualKg baselineKg).savedKg =
      round2fixed (baselineKg - actualKg) := by
  have hne : ¬ baselineKg ≤ 0 := not_le.mpr h
  refine ⟨?_, ?_, ?_, ?_⟩
  · simp [Calculator2.calculateSavings, hne]
  · simp only [Calculator2.calculateSavings, hne, if_false]
    exact round2_nonneg (le_max_left _ _)
  · intro hba
    simp [Calculator2.calculateSavings, hne, max_eq_left (sub_nonpos.mpr hba), round2_zero]
  · simp [Calculator1.calculateSavingd, hne]

theorem c1_savings_clamped_witness :
    (Calculator2.calculateSavings 2 1).savedKg = round2 (max 0 ((1 : ℚ) - 2)) ∧
    0 ≤ (Calculator2.calculateSavings 2 1).savedKg ∧
    ((1 : ℚ) ≤ 2 → (Calculator2.calculateSavings 2 1).savedKg = 0) ∧
    (Calculator1.calculateSavingd 2 1).savedKg = round2fixed ((1 : ℚ) - 2) :=
  c1_savings_clamped 2 1 (by norm_num)

/-- C2: for every positive distance and every mode of the closed enumeration,
the two parallel emission implementations return equal values (the second
wraps the common value in `Except.ok`): `Number(x.toFixed(2))` and
`Math.round(x * 100) / 100` agree on the non-negative products that arise. -/
theorem c2_variants_agree (d : ℚ) (hd : 0 < d) (m : String)
    (hm : m ∈ CONFIG.transportModeKeys) :
    Calculator2.calculateEmission d m = Except.ok (Calculator1.calculateEmission d m) :=
  emission_bridge hd hm

theorem c2_variants_agree_witness :
    Calculator2.calculateEmission 451 "car" =
      Except.ok (Calculator1.calculateEmission 451 "car") :=
  c2_variants_agree 451 (by norm_num) "car" (by decide)

/-- C3: for every positive distance, the first emission implementation returns
exactly the distance times the configured factor (`bicycle` 0, `car` 0.12,
`bus` 0.089, `truck` 0.96), rounded to 2 decimals half away from zero. -/
theorem c3_emission_formula (d : ℚ) (hd : 0 < d) :
    Calculator1.calculateEmission d "bicycle" = round2fixed (d * 0) ∧
    Calculator1.calculateEmission d "car" = round2fixed (d * 0.12) ∧
    Calculator1.calculateEmission d "bus" = round2fixed (d * 0.089) ∧
    Calculator1.calculateEmission d "truck" = round2fixed (d * 0.96) :=
  ⟨calculateEmission1_of_lookup lookup_bicycle hd, calculateEmission1_of_lookup lookup_car hd,
   calculateEmission1_of_lookup lookup_bus hd, calculateEmission1_of_lookup lookup_truck hd⟩

theorem c3_emission_formula_witness :
    Calculator1.calculateEmission 1 "bicycle" = round2fixed (1 * 0) ∧
    Calculator1.calculateEmission 1 "car" = round2fixed (1 * 0.12) ∧
    Calculator1.calculateEmission 1 "bus" = round2fixed (1 * 0.089) ∧
    Calculator1.calculateEmission 1 "truck" = round2fixed (1 * 0.96) :=
  c3_emission_formula 1 (by norm_num)

/-- C4 counterexample: the first emission implementation silently returns the
degraded value `0` for the unknown mode `"plane"` instead of failing. -/
theorem c4_counterexample : Calculator1.calculateEmission 10 "plane" = 0 := by
  simp [Calculator1.calculateEmission, CONFIG.EMISSION_FACTORS, List.lookup]

/-- C4 (amended): for every mode outside the closed enumeration, the second
emission implementation always rejects (it never returns a value), while the
first silently returns `0` for every distance. -/
theorem c4_unknown_mode (d : ℚ) (m : String)
    (hm : List.lookup m CONFIG.EMISSION_FACTORS = none) :
    (∀ q : ℚ, Calculator2.calculateEmission d m ≠ Except.ok q) ∧
    Calculator1.calculateEmission d m = 0 := by
  constructor
  · intro q
    by_cases hd : d ≤ 0
    · simp [Calculator2.calculateEmission, hd]
    · simp [Calculator2.calculateEmission, hd, hm]
  · simp [Calculator1.calculateEmission, hm]

theorem c4_unknown_mode_witness :
    (∀ q : ℚ, Calculator2.calculateEmission 10 "plane" ≠ Except.ok q) ∧
    Calculator1.calculateEmission 10 "plane" = 0 :=
  c4_unknown_mode 10 "plane" (by simp [CONFIG.EMISSION_FACTORS, List.lookup])

/-- C5 counterexample: at distance `0` the second emission implementation does
not return `0` for `bicycle` — it rejects with the invalid-distance error. -/
theorem c5_counterexample :
    Calculator2.calculateEmission 0 "bicycle" =
      Except.error "Invalid distance. Must be a positive number." := by
  simp [Calculator2.calculateEmission]

/-- C5 (amended): the first emission implementation returns `0` for `bicycle`
at every distance (including `0`); the second returns `0` for every strictly
positive distance but rejects `d = 0` with an invalid-distance error. -/
theorem c5_bicycle_zero (d : ℚ) :
    Calculator1.calculateEmission d "bicycle" = 0 ∧
    (0 < d → Calculator2.calculateEmission d "bicycle" = Except.ok 0) := by
  refine ⟨calculateEmission1_bicycle d, ?_⟩
  intro hd
  rw [calculateEmission2_of_lookup lookup_bicycle hd]
  norm_num [round2, jsRound]

theorem c5_bicycle_zero_witness :
    Calculator1.calculateEmission 5 "bicycle" = 0 ∧
    Calculator2.calculateEmission 5 "bicycle" = Except.ok 0 :=
  ⟨(c5_bicycle_zero 5).1, (c5_bicycle_zero 5).2 (by norm_num)⟩

/-- C9: the documented end-to-end example — 451 km by car gives 54.12 kg CO2,
0.0541 carbon credits, and a price estimate of 2.71 / 8.12 / 5.41 USD. -/
theorem c9_example_end_to_end :
    Calculator1.calculateEmission 451 "car" = 54.12 ∧
    Calculator1.calculateCarbonCredits 54.12 = 0.0541 ∧
    Calculator1.estimatedCreditPrice 0.0541 =
      { min := 2.71, max := 8.12, average := 5.41 } := by
  refine ⟨?_, ?_, ?_⟩
  · rw [calculateEmission1_of_lookup lookup_car (by norm_num)]
    norm_num [round2fixed, toFixedRound]
  · norm_num [Calculator1.calculateCarbonCredits, CONFIG.CARBON_CREDIT.KG_PER_CREDIT,
      round4fixed, toFixedRound]
  · norm_num [Calculator1.estimatedCreditPrice, CONFIG.CARBON_CREDIT.PRICE_MIN_USD,
      CONFIG.CARBON_CREDIT.PRICE_MAX_USD, round2fixed, toFixedRound, PriceEstimate.mk.injEq]

/-- C6: both `findDistance` implementations are direction-agnostic, and their
result is unchanged when either input is altered only by leading/trailing
white space or letter case (i.e. when its `.trim().toLowerCase()`
normalization is unchanged). -/
theorem c6_findDistance_symm_norm (a b a' b' : String)
    (ha : normInput a' = normInput a) (hb : normInput b' = normInput b) :
    RoutesDB1.findDistance a b = RoutesDB1.findDistance b a ∧
    RoutesDB2.findDistance a b = RoutesDB2.findDistance b a ∧
    RoutesDB1.findDistance a' b' = RoutesDB1.findDistance a b ∧
    RoutesDB2.findDistance a' b' = RoutesDB2.findDistance a b := by
  refine ⟨?_, ?_, ?_, ?_⟩
  · exact search1_symm _ _
  · rw [findDistance2_eq_search, findDistance2_eq_search]
    exact search2_symm _ _
  · show RoutesDB1.search (normInput a') (normInput b') = _
    rw [ha, hb]
    rfl
  · rw [findDistance2_eq_search, findDistance2_eq_search, ha, hb]

theorem c6_findDistance_symm_norm_witness :
    RoutesDB1.findDistance "Toronto, ON" "Ottawa, ON" =
      RoutesDB1.findDistance "Ottawa, ON" "Toronto, ON" ∧
    RoutesDB2.findDistance "Toronto, ON" "Ottawa, ON" =
      RoutesDB2.findDistance "Ottawa, ON" "Toronto, ON" ∧
    RoutesDB1.findDistance " toronto, on " "OTTAWA, ON" =
      RoutesDB1.findDistance "Toronto, ON" "Ottawa, ON" ∧
    RoutesDB2.findDistance " toronto, on " "OTTAWA, ON" =
      RoutesDB2.findDistance "Toronto, ON" "Ottawa, ON" :=
  c6_findDistance_symm_norm "Toronto, ON" "Ottawa, ON" " toronto, on " "OTTAWA, ON"
    (by decide) (by decide)

/-- C7: both `findDistance` implementations always return either the distance
of the first matching route (a strictly positive number) or the sentinel
`none` (JavaScript `null`) — never a numeric zero — and an empty input always
yields the sentinel. -/
theorem c7_findDistance_total (a b : String) :
    (RoutesDB1.findDistance a b = none ∨
      ∃ k, RoutesDB1.findDistance a b = some k ∧ 0 < k) ∧
    (a = "" ∨ b = "" → RoutesDB1.findDistance a b = none) ∧
    (RoutesDB2.findDistance a b = none ∨
      ∃ k, RoutesDB2.findDistance a b = some k ∧ 0 < k) ∧
    (a = "" ∨ b = "" → RoutesDB2.findDistance a b = none) := by
  refine ⟨?_, ?_, ?_, ?_⟩
  · rcases h : RoutesDB1.findDistance a b with _ | k
    · exact Or.inl rfl
    · exact Or.inr ⟨k, rfl, search1_pos h⟩
  · intro h
    show RoutesDB1.search (normInput a) (normInput b) = none
    apply search1_empty
    rcases h with rfl | rfl
    · exact Or.inl normInput_empty
    · exact Or.inr normInput_empty
  · rw [findDistance2_eq_search]
    rcases h : RoutesDB2.search (normInput a) (normInput b) with _ | k
    · exact Or.inl rfl
    · exact Or.inr ⟨k, rfl, search2_pos h⟩
  · intro h
    rw [findDistance2_eq_search]
    apply search2_empty
    rcases h with rfl | rfl
    · exact Or.inl normInput_empty
    · exact Or.inr normInput_empty

theorem c7_findDistance_total_witness :
    RoutesDB1.findDistance "" "Toronto, ON" = none ∧
    RoutesDB2.findDistance "" "Toronto, ON" = none :=
  ⟨(c7_findDistance_total "" "Toronto, ON").2.1 (Or.inl rfl),
   (c7_findDistance_total "" "Toronto, ON").2.2.2 (Or.inl rfl)⟩


lemma allModes1_eq (d : ℚ) :
    Calculator1.calculateAllModes d = List.insertionSort byEmission
      (CONFIG.transportModeKeys.map
        (Calculator1.modeEntry d (Calculator1.calculateEmission d "car"))) := rfl

lemma allModes1_length (d : ℚ) : (Calculator1.calculateAllModes d).length = 4 := by
  rw [allModes1_eq, List.length_insertionSort, List.length_map]
  rfl

lemma allModes1_mem {d : ℚ} {e : ModeResult} (he : e ∈ Calculator1.calculateAllModes d) :
    ∃ m ∈ CONFIG.transportModeKeys,
      Calculator1.modeEntry d (Calculator1.calculateEmission d "car") m = e := by
  rw [allModes1_eq, List.mem_insertionSort, List.mem_map] at he
  exact he

lemma allModes1_mem_of {d : ℚ} {m : String} (hm : m ∈ CONFIG.transportModeKeys) :
    Calculator1.modeEntry d (Calculator1.calculateEmission d "car") m ∈
      Calculator1.calculateAllModes d := by
  rw [allModes1_eq, List.mem_insertionSort, List.mem_map]
  exact ⟨m, hm, rfl⟩

lemma allModes1_perm (d : ℚ) :
    ((Calculator1.calculateAllModes d).map (fun e => e.mode)).Perm
      CONFIG.transportModeKeys := by
  have hp := (List.perm_insertionSort byEmission
    (CONFIG.transportModeKeys.map
      (Calculator1.modeEntry d (Calculator1.calculateEmission d "car")))).map
    (fun e => e.mode)
  rw [← allModes1_eq] at hp
  simpa [List.map_map, Function.comp, modeEntry1_mode] using hp

lemma allModes1_pairwise (d : ℚ) :
    (Calculator1.calculateAllModes d).Pairwise
      (lexLt (fun e => e.emission) (fun e => modeIdx e.mode)) := by
  rw [allModes1_eq]
  refine pairwise_lex_insertionSort (fun e : ModeResult => e.emission)
    (fun e : ModeResult => modeIdx e.mode) (fun a b => Iff.rfl) _ ?_
  rw [List.pairwise_map]
  simp only [modeEntry1_mode]
  decide

lemma allModes2_length (d : ℚ) :
    (List.insertionSort byEmission2 (CONFIG.transportModeKeys.map (fun m =>
      Calculator2.modeEntry (Calculator1.calculateEmission d "car")
        (Calculator1.calculateEmission d m) m))).length = 4 := by
  rw [List.length_insertionSort, List.length_map]
  rfl

lemma allModes2_mem {d : ℚ} {e : ModeResult2}
    (he : e ∈ List.insertionSort byEmission2 (CONFIG.transportModeKeys.map (fun m =>
      Calculator2.modeEntry (Calculator1.calculateEmission d "car")
        (Calculator1.calculateEmission d m) m))) :
    ∃ m ∈ CONFIG.transportModeKeys,
      Calculator2.modeEntry (Calculator1.calculateEmission d "car")
        (Calculator1.calculateEmission d m) m = e := by
  rw [List.mem_insertionSort, List.mem_map] at he
  exact he

lemma allModes2_mem_of {d : ℚ} {m : String} (hm : m ∈ CONFIG.transportModeKeys) :
    Calculator2.modeEntry (Calculator1.calculateEmission d "car")
        (Calculator1.calculateEmission d m) m ∈
      List.insertionSort byEmission2 (CONFIG.transportModeKeys.map (fun m =>
        Calculator2.modeEntry (Calculator1.calculateEmission d "car")
          (Calculator1.calculateEmission d m) m)) := by
  rw [List.mem_insertionSort, List.mem_map]
  exact ⟨m, hm, rfl⟩

lemma allModes2_perm (d : ℚ) :
    ((List.insertionSort byEmission2 (CONFIG.transportModeKeys.map (fun m =>
      Calculator2.modeEntry (Calculator1.calculateEmission d "car")
        (Calculator1.calculateEmission d m) m))).map (fun e => e.mode)).Perm
      CONFIG.transportModeKeys := by
  have hp := (List.perm_insertionSort byEmission2
    (CONFIG.transportModeKeys.map (fun m =>
      Calculator2.modeEntry (Calculator1.calculateEmission d "car")
        (Calculator1.calculateEmission d m) m))).map (fun e => e.mode)
  simpa [List.map_map, Function.comp, modeEntry2_mode] using hp

lemma allModes2_pairwise (d : ℚ) :
    (List.insertionSort byEmission2 (CONFIG.transportModeKeys.map (fun m =>
      Calculator2.modeEntry (Calculator1.calculateEmission d "car")
        (Calculator1.calculateEmission d m) m))).Pairwise
      (lexLt (fun e => e.emission) (fun e => modeIdx e.mode)) := by
  refine pairwise_lex_insertionSort (fun e : ModeResult2 => e.emission)
    (fun e : ModeResult2 => modeIdx e.mode) (fun a b => Iff.rfl) _ ?_
  rw [List.pairwise_map]
  simp only [modeEntry2_mode]
  decide

/-- C8: for every positive distance, both `calculateAllModes` implementations
return exactly 4 entries — one per mode of the closed enumeration — sorted
ascending by emission with ties broken by the declaration order of the modes
(the stable sort keeps the enumeration order among equal emissions), and the
`bicycle` entry always has emission `0`. -/
theorem c8_allModes_four_sorted (d : ℚ) (hd : 0 < d) :
    ((Calculator1.calculateAllModes d).length = 4 ∧
     ((Calculator1.calculateAllModes d).map (fun e => e.mode)).Perm
       CONFIG.transportModeKeys ∧
     (Calculator1.calculateAllModes d).Pairwise
       (lexLt (fun e => e.emission) (fun e => modeIdx e.mode)) ∧
     (∀ e ∈ Calculator1.calculateAllModes d, e.mode = "bicycle" → e.emission = 0) ∧
     (∃ e ∈ Calculator1.calculateAllModes d, e.mode = "bicycle")) ∧
    ∃ rb, Calculator2.calculateAllModes d = Except.ok rb ∧
      rb.length = 4 ∧
      (rb.map (fun e => e.mode)).Perm CONFIG.transportModeKeys ∧
      rb.Pairwise (lexLt (fun e => e.emission) (fun e => modeIdx e.mode)) ∧
      (∀ e ∈ rb, e.mode = "bicycle" → e.emission = 0) ∧
      (∃ e ∈ rb, e.mode = "bicycle") := by
  constructor
  · refine ⟨allModes1_length d, allModes1_perm d, allModes1_pairwise d, ?_, ?_⟩
    · intro e he hmode
      obtain ⟨m, hm, rfl⟩ := allModes1_mem he
      rw [modeEntry1_mode] at hmode
      subst hmode
      rw [modeEntry1_emission]
      exact calculateEmission1_bicycle d
    · exact ⟨_, allModes1_mem_of (by decide : "bicycle" ∈ CONFIG.transportModeKeys), rfl⟩
  · refine ⟨_, calculateAllModes2_eq hd, allModes2_length d, allModes2_perm d,
      allModes2_pairwise d, ?_, ?_⟩
    · intro e he hmode
      obtain ⟨m, hm, rfl⟩ := allModes2_mem he
      rw [modeEntry2_mode] at hmode
      subst hmode
      rw [modeEntry2_emission]
      exact calculateEmission1_bicycle d
    · exact ⟨_, allModes2_mem_of (by decide : "bicycle" ∈ CONFIG.transportModeKeys), rfl⟩

theorem c8_allModes_four_sorted_witness :
    ((Calculator1.calculateAllModes 1).length = 4 ∧
     ((Calculator1.calculateAllModes 1).map (fun e => e.mode)).Perm
       CONFIG.transportModeKeys ∧
     (Calculator1.calculateAllModes 1).Pairwise
       (lexLt (fun e => e.emission) (fun e => modeIdx e.mode)) ∧
     (∀ e ∈ Calculator1.calculateAllModes 1, e.mode = "bicycle" → e.emission = 0) ∧
     (∃ e ∈ Calculator1.calculateAllModes 1, e.mode = "bicycle")) ∧
    ∃ rb, Calculator2.calculateAllModes 1 = Except.ok rb ∧
      rb.length = 4 ∧
      (rb.map (fun e => e.mode)).Perm CONFIG.transportModeKeys ∧
      rb.Pairwise (lexLt (fun e => e.emission) (fun e => modeIdx e.mode)) ∧
      (∀ e ∈ rb, e.mode = "bicycle" → e.emission = 0) ∧
      (∃ e ∈ rb, e.mode = "bicycle") :=
  c8_allModes_four_sorted 1 (by norm_num)

/-- C10: whenever the computed car emission is strictly positive, the `car`
entry of both `calculateAllModes` results has `percentageVsCar` exactly 100
(the car is its own baseline, and `round(100) = 100` survives both rounding
styles). -/
theorem c10_car_is_baseline (d : ℚ) (h : 0 < Calculator1.calculateEmission d "car") :
    (∀ e ∈ Calculator1.calculateAllModes d, e.mode = "car" → e.percentageVsCar = 100) ∧
    (∃ e ∈ Calculator1.calculateAllModes d, e.mode = "car") ∧
    ∃ rb, Calculator2.calculateAllModes d = Except.ok rb ∧
      (∀ e ∈ rb, e.mode = "car" → e.percentageVsCar = some 100) ∧
      (∃ e ∈ rb, e.mode = "car") := by
  have hd : 0 < d := calculateEmission1_car_pos_of h
  refine ⟨?_, ?_, ?_⟩
  · intro e he hmode
    obtain ⟨m, hm, rfl⟩ := allModes1_mem he
    rw [modeEntry1_mode] at hmode
    subst hmode
    simp [Calculator1.modeEntry, h, div_self h.ne', round2fixed_hundred]
  · exact ⟨_, allModes1_mem_of (by decide : "car" ∈ CONFIG.transportModeKeys), rfl⟩
  · refine ⟨_, calculateAllModes2_eq hd, ?_, ?_⟩
    · intro e he hmode
      obtain ⟨m, hm, rfl⟩ := allModes2_mem he
      rw [modeEntry2_mode] at hmode
      subst hmode
      simp [Calculator2.modeEntry, h.ne', div_self h.ne', jsRound_hundred]
    · exact ⟨_, allModes2_mem_of (by decide : "car" ∈ CONFIG.transportModeKeys), rfl⟩

theorem c10_car_is_baseline_witness :
    (∀ e ∈ Calculator1.calculateAllModes 1, e.mode = "car" → e.percentageVsCar = 100) ∧
    (∃ e ∈ Calculator1.calculateAllModes 1, e.mode = "car") ∧
    ∃ rb, Calculator2.calculateAllModes 1 = Except.ok rb ∧
      (∀ e ∈ rb, e.mode = "car" → e.percentageVsCar = some 100) ∧
      (∃ e ∈ rb, e.mode = "car") :=
  c10_car_is_baseline 1
    (by rw [calculateEmission1_of_lookup lookup_car one_pos]
        norm_num [round2fixed, toFixedRound])
